import Mathlib

/-!
# ai_gallery_search client script (static/js/script.js)

A shallow embedding of the browser script: element resolution over a document,
the upload and search handlers, and the result renderer, followed by the
properties of the specification that were checked against it.

Conventions of the embedding

* JavaScript strings are Lean strings; the script only splits on the ASCII
  characters `/` and `.`, so code points and UTF-16 code units agree on
  everything it computes.
* `null` and `undefined` are both `none`: the script only ever tests them with
  `||`, `??`, `!x`, `x ? a : b` and `x != null`, none of which tells them apart.
* A result item is one of the wire shapes of the search response: a string, or
  an object whose `filename`, `name` and `url` are strings and whose
  `similarity` and `score` are numbers, each possibly missing or `null`.
* A number is a finite IEEE double, kept as sign, mantissa and binary exponent,
  so its exact value is known and `toFixed` can be computed without rounding
  error.
-/

namespace AiGallery

/-! ## JavaScript primitives used by the script -/

/-- Characters of `s.split(sep)` for a one-character separator: the pieces
between the occurrences of `sep`; never an empty array. -/
def splitChars (sep : Char) : List Char → List (List Char)
  | [] => [[]]
  | c :: cs =>
    if c = sep then [] :: splitChars sep cs
    else
      match splitChars sep cs with
      | [] => [[c]]
      | seg :: rest => (c :: seg) :: rest

/-- The array `s.split(sep)` for a one-character separator. -/
def split (s : String) (sep : Char) : List String :=
  (splitChars sep s.data).map String.mk

/-- The value of `xs.pop()`: the last element, `undefined` on an empty array. -/
def pop {α : Type} (xs : List α) : Option α := xs.getLast?

/-- One character of `toLowerCase()`. Only the part of the Unicode mapping that
lands on ASCII is kept: `A`-`Z` and U+212A KELVIN SIGN (which lower-cases to
`k`). No other character lower-cases to an ASCII letter, so a comparison of the
result with an ASCII word is decided as in the browser. -/
def toLowerCaseChar (c : Char) : Char :=
  if c.toNat = 0x212A then 'k' else c.toLower

/-- The string `s.toLowerCase()` (see `toLowerCaseChar`). -/
def toLowerCase (s : String) : String := String.mk (s.data.map toLowerCaseChar)

/-- Truthiness of a value that is a string, `null` or `undefined`: only a
non-empty string is truthy. -/
def truthy : Option String → Bool
  | some s => !(s.data.isEmpty)
  | none => false

/-- The value of `a || b` on strings-or-null: `a` when it is truthy, else `b`. -/
def orElse (a b : Option String) : Option String :=
  if truthy a then a else b

/-- The value of `a ?? b`: `a` unless it is `null` or `undefined`. -/
def nullish {α : Type} (a b : Option α) : Option α :=
  match a with
  | some x => some x
  | none => b

/-- String conversion of a string-or-null operand of `+`: `null` reads "null". -/
def toStr : Option String → String
  | some s => s
  | none => "null"

/-- A finite double: the value is `(-1)^neg * mant * 2^exp`. -/
structure JsNumber where
  neg : Bool
  mant : Nat
  exp : Int
deriving DecidableEq, Repr

/-- The integer `n` of `x.toFixed(2)`: the integer nearest to `100 * |x|`, the
larger one on a tie. -/
def JsNumber.hundredths (x : JsNumber) : Nat :=
  match x.exp with
  | Int.ofNat e => 100 * x.mant * 2 ^ e
  | Int.negSucc k => (200 * x.mant + 2 ^ (k + 1)) / (2 * 2 ^ (k + 1))

/-- The exact absolute value `mant * 2^exp` of a number. -/
def JsNumber.magnitude (x : JsNumber) : ℚ := (x.mant : ℚ) * (2 : ℚ) ^ x.exp

/-- Whether `|x| < 10^21`, the range in which `toFixed` uses fixed notation. -/
def JsNumber.inFixedRange (x : JsNumber) : Bool :=
  match x.exp with
  | Int.ofNat e => decide (x.mant * 2 ^ e < 10 ^ 21)
  | Int.negSucc k => decide (x.mant < 10 ^ 21 * 2 ^ (k + 1))

/-- Whether `x < 0` (the zero of either sign is not). -/
def JsNumber.isNegative (x : JsNumber) : Bool := x.neg && decide (x.mant ≠ 0)

/-- The decimal digit character of `d % 10`. -/
def digitChar (d : Nat) : Char := Char.ofNat (48 + d % 10)

/-- The string `x.toFixed(2)`. In the fixed range it is an optional minus sign,
the integer part, a point and two digits. From `10^21` on the builtin returns
`String(x)`, here `expo x`; `exponentialForm` below is that function. -/
def toFixed2 (expo : JsNumber → String) (x : JsNumber) : String :=
  if x.inFixedRange then
    let n := x.hundredths
    (if x.isNegative then "-" else "") ++ Nat.repr (n / 100) ++ "." ++
      String.mk [digitChar (n / 10), digitChar n]
  else expo x

/-! ### `String(x)` from `10^21` on

`toFixed` hands a number of absolute value `10^21` or more to `String(x)`,
which writes the shortest decimal digits that read back as the same double,
in exponential form. -/

/-- The integer value of `|x|`; a double from `2^53` on is an integer. -/
def JsNumber.natAbs (x : JsNumber) : Nat :=
  match x.exp with
  | Int.ofNat e => x.mant * 2 ^ e
  | Int.negSucc k => x.mant / 2 ^ (k + 1)

/-- The binary exponent of the last place of the double `v`: the least `e`
for which `v / 2^e` fits the 53 bits of a mantissa. -/
def ulpExponent (v : Nat) : Nat :=
  ((List.range 1024).find? (fun e => decide (v / 2 ^ e < 2 ^ 53))).getD 0

/-- Whether the integer `y` reads back as the double `v`: it lies between the
midpoints to the neighbouring doubles, a midpoint counting when the mantissa
of `v` is even. Distances are taken four-fold to stay in the integers; below a
power of two the neighbour is half as far. -/
def roundsTo (v y : Nat) : Bool :=
  let e := ulpExponent v
  let m := v / 2 ^ e
  let below := if m = 2 ^ 52 then 2 ^ e else 2 * 2 ^ e
  let above := 2 * 2 ^ e
  if m % 2 = 0 then decide (4 * v ≤ 4 * y + below) && decide (4 * y ≤ 4 * v + above)
  else decide (4 * v < 4 * y + below) && decide (4 * y < 4 * v + above)

/-- The distance between two naturals. -/
def gap (a b : Nat) : Nat := (a - b) + (b - a)

/-- The pairs `(s, j)` with `s` of exactly `k` digits whose value `s * 10^j`
reads back as `v`. -/
def candidates (v k : Nat) : List (Nat × Nat) :=
  let d := (Nat.repr v).length
  ([d - k - 1, d - k, d - k + 1].flatMap
      (fun j => [(v / 10 ^ j, j), (v / 10 ^ j + 1, j)])).filter
    (fun c => decide (10 ^ (k - 1) ≤ c.1) && decide (c.1 < 10 ^ k) &&
      roundsTo v (c.1 * 10 ^ c.2))

/-- The better of two candidates: the one nearer to `v`, the even `s` on a
tie. -/
def better (v : Nat) (a b : Nat × Nat) : Nat × Nat :=
  let da := gap (a.1 * 10 ^ a.2) v
  let db := gap (b.1 * 10 ^ b.2) v
  if db < da then b else if da < db then a else if a.1 % 2 = 0 then a else b

/-- The digits `s` and the power of ten `j` that `String(v)` writes: as few
digits as possible (17 always suffice for a double), then the nearest. -/
def shortest (v : Nat) : Nat × Nat :=
  match (List.range 17).findSome? (fun i =>
      match candidates v (i + 1) with
      | [] => none
      | c :: cs => some (cs.foldl (better v) c)) with
  | some c => c
  | none => (v, 0)

/-- The string `String(x)` for a double with `|x| ≥ 10^21`, the only range in
which `toFixed` asks for it: a minus sign for a negative number, the first
digit, a point and the remaining digits if there are any, `e+` and the decimal
exponent. -/
def exponentialForm (x : JsNumber) : String :=
  let c := shortest x.natAbs
  let digits := (Nat.repr c.1).data
  let n := digits.length + c.2
  (if x.neg && decide (x.mant ≠ 0) then "-" else "") ++
  (match digits with
   | [] => ""
   | [d] => String.mk [d]
   | d :: rest => String.mk (d :: '.' :: rest)) ++ "e+" ++ Nat.repr (n - 1)

/-! ## Result items and their normal form (renderResults, lines 152-160) -/

/-- An object item of the response: any combination of the five fields. -/
structure ItemObject where
  filename : Option String
  name : Option String
  url : Option String
  similarity : Option JsNumber
  score : Option JsNumber
deriving DecidableEq, Repr

/-- One element of the `matches` / `results` array. -/
inductive Item where
  | str (s : String)
  | obj (o : ItemObject)
deriving DecidableEq, Repr

/-- The three locals `filename`, `url`, `score` after lines 152-160. -/
structure Normalised where
  filename : Option String
  url : Option String
  score : Option JsNumber
deriving DecidableEq, Repr

/-- The template literal with the string `dir` in front of `filename`,
guarded by `filename ? ... : null`. -/
def uploadsUrl (dir : String) (filename : Option String) : Option String :=
  if truthy filename then
    match filename with
    | some f => some (dir ++ f)
    | none => none
  else none

/-- Lines 152-160: the locals derived from one item. -/
def normalise : Item → Normalised
  | Item.str s =>
    { filename := pop (split s '/'), url := some s, score := none }
  | Item.obj o =>
    let filename := orElse (orElse o.filename o.name) none
    let url := orElse (orElse o.url (uploadsUrl "/uploads/" filename))
      (uploadsUrl "/static/uploads/" filename)
    let score := nullish o.similarity (nullish o.score none)
    { filename := filename, url := url, score := score }

/-! ## Cards (renderResults, lines 162-194) -/

/-- Inline style assignments, in program order. -/
abbrev Style := List (String × String)

/-- The media element of a card, with the properties the script assigns. -/
inductive Media where
  | video (src : Option String) (controls : Bool) (style : Style)
  | img (src : Option String) (alt : String) (style : Style)
deriving DecidableEq, Repr

/-- The value assigned to the `src` property of the media element. -/
def Media.src : Media → Option String
  | Media.video src _ _ => src
  | Media.img src _ _ => src

/-- A `div.result-card` with its two children. -/
structure Card where
  className : String
  style : Style
  media : Media
  caption : String
  captionStyle : Style
deriving DecidableEq, Repr

/-- A child of the results container: markup assigned through `innerHTML`, or
a card appended by the renderer. -/
inductive Child where
  | html (markup : String)
  | card (c : Card)
deriving DecidableEq, Repr

/-- The extension list of line 168. -/
def videoExtensions : List String := ["mp4", "mov", "webm", "avi", "mkv"]

/-- Line 167: `filename ? filename.split('.').pop().toLowerCase() : ''`. The
array of `split` is never empty, so `pop()` is always a string. -/
def extOf (filename : Option String) : String :=
  if truthy filename then
    match filename with
    | some f =>
      match pop (split f '.') with
      | some e => toLowerCase e
      | none => ""
    | none => ""
  else ""

/-- Line 168: the test that chooses a video element. -/
def isVideo (filename : Option String) : Bool :=
  videoExtensions.contains (extOf filename)

/-- Line 187: the text of the caption. -/
def captionText (expo : JsNumber → String) (filename : Option String)
    (score : Option JsNumber) : String :=
  toStr filename ++
    (match score with
     | some x => " — " ++ toFixed2 expo x
     | none => "")

/-- Lines 162-192: the card built from one item. -/
def buildCard (expo : JsNumber → String) (item : Item) : Card :=
  let r := normalise item
  { className := "result-card"
    style := [("margin", "8px"), ("width", "220px")]
    media :=
      if isVideo r.filename then
        Media.video r.url true [("width", "100%"), ("borderRadius", "8px")]
      else
        Media.img r.url ((orElse r.filename (some "")).getD "")
          [("width", "100%"), ("height", "160px"), ("objectFit", "cover"),
           ("borderRadius", "8px")]
    caption := captionText expo r.filename r.score
    captionStyle := [("fontSize", "0.9rem"), ("margin", "8px 0 0 0"),
      ("textAlign", "center"), ("wordBreak", "break-word")] }

/-- The children of an element after `el.innerHTML = markup`. -/
def setInnerHTML (markup : String) : List Child :=
  if markup.data.isEmpty then [] else [Child.html markup]

/-- Lines 142-196: the children of the results container after
`renderResults(results)`, `before` being its children at the call; line 143
replaces them at once. An absent list is `none`. -/
def renderResults (expo : JsNumber → String) (results : Option (List Item))
    (before : List Child) : List Child :=
  let content := (fun (_ : List Child) => setInnerHTML "") before
  match results with
  | none => setInnerHTML "<p>No matches found.</p>"
  | some items =>
    if items.length = 0 then setInnerHTML "<p>No matches found.</p>"
    else items.foldl (fun acc item => acc ++ [Child.card (buildCard expo item)]) content

/-! ## The document (what `document.getElementById`, `querySelector`,
`createElement` and `appendChild` see) -/

/-- An element of the page: its lower-case local name, its attributes (names
in lower case, as the HTML parser stores them) and its depth in the tree, the
root `html` element being at depth 0. -/
structure Element where
  tagName : String
  attrs : List (String × String)
  depth : Nat
deriving DecidableEq, Repr

/-- A parsed HTML document: its elements in tree order. An element at depth
`d + 1` is a child of the nearest element at depth `d` before it. -/
abbrev Document := List Element

/-- The value of attribute `name`, if the element has it. -/
def Element.getAttribute (e : Element) (name : String) : Option String :=
  (e.attrs.find? (fun a => decide (a.1 = name))).map (fun a => a.2)

/-- The element's ID: the value of its `id` attribute unless that is empty. -/
def Element.id (e : Element) : Option String :=
  match e.getAttribute "id" with
  | some v => if v.data.isEmpty then none else some v
  | none => none

/-- The result of `document.getElementById(id)`: the first element in tree
order whose ID is `id`, else `null`. -/
def getElementById (doc : Document) (id : String) : Option Element :=
  doc.find? (fun e => decide (e.id = some id))

/-- The attribute tests of the selectors the script uses. -/
inductive AttrTest where
  | has (name : String)
  | equalsNoCase (name value : String)
  | includes (name value : String)
deriving DecidableEq, Repr

/-- A compound selector `tag[test]`. -/
structure Compound where
  tag : String
  test : AttrTest
deriving DecidableEq, Repr

/-- Whether `needle` occurs in `hay` as a contiguous run. -/
def occursIn (needle hay : List Char) : Bool :=
  hay.tails.any (fun t => needle.isPrefixOf t)

/-- Whether an element's attributes pass a test. `equalsNoCase` is the
comparison HTML prescribes for `[type="..."]` (ASCII case-insensitive);
`includes` is `[name*="value"]`. -/
def AttrTest.holds (e : Element) : AttrTest → Bool
  | AttrTest.has name => (e.getAttribute name).isSome
  | AttrTest.equalsNoCase name value =>
    match e.getAttribute name with
    | some v => decide (v.data.map Char.toLower = value.data.map Char.toLower)
    | none => false
  | AttrTest.includes name value =>
    match e.getAttribute name with
    | some v => !(value.data.isEmpty) && occursIn value.data v.data
    | none => false

/-- Whether an element matches a comma-separated list of compound selectors. -/
def matchesSelector (sel : List Compound) (e : Element) : Bool :=
  sel.any (fun c => decide (e.tagName = c.tag) && c.test.holds e)

/-- The result of `document.querySelector(sel)`: the first element in tree
order that matches, else `null`. -/
def querySelector (doc : Document) (sel : List Compound) : Option Element :=
  doc.find? (matchesSelector sel)

/-- The value of `a || b` on element references (an element is always truthy). -/
def orElem (a b : Option Element) : Option Element :=
  match a with
  | some e => some e
  | none => b

/-! ## Element resolution (lines 9-46) -/

/-- Lines 9-15: the first listed id that names an element wins. -/
def findOne (doc : Document) : List String → Option Element
  | [] => none
  | id :: rest =>
    match getElementById doc id with
    | some el => some el
    | none => findOne doc rest

/-- The fallback selector of line 19: `input[type="file"]`. -/
def fileInputSelector : List Compound :=
  [{ tag := "input", test := AttrTest.equalsNoCase "type" "file" }]

/-- The fallback selector of line 22: `button[data-upload]`. -/
def uploadBtnSelector : List Compound :=
  [{ tag := "button", test := AttrTest.has "data-upload" }]

/-- The fallback selector of line 32:
`input[type="search"], input[placeholder*="Search"]`. -/
def searchInputSelector : List Compound :=
  [{ tag := "input", test := AttrTest.equalsNoCase "type" "search" },
   { tag := "input", test := AttrTest.includes "placeholder" "Search" }]

/-- The fallback selector of line 35: `button[data-search]`. -/
def searchBtnSelector : List Compound :=
  [{ tag := "button", test := AttrTest.has "data-search" }]

/-- The candidate ids of line 18. -/
def fileInputIds : List String := ["fileInput", "fileUpload", "file", "fileUploadInput"]

/-- The candidate ids of line 21. -/
def uploadBtnIds : List String := ["uploadBtn", "uploadButton", "upload-btn", "uploadBtnMain"]

/-- The candidate ids of line 24. -/
def uploadStatusIds : List String := ["uploadStatus", "selectedCount"]

/-- The candidate ids of line 31. -/
def searchInputIds : List String :=
  ["searchInput", "search-box", "search-box", "searchInputBox"]

/-- The candidate ids of line 34. -/
def searchBtnIds : List String := ["searchBtn", "searchButton", "search-btn", "search-btn-main"]

/-- The candidate ids of line 37. -/
def resultsDivIds : List String := ["results", "results-grid", "results-container"]

/-- Lines 18-19. -/
def fileInput (doc : Document) : Option Element :=
  orElem (findOne doc fileInputIds) (querySelector doc fileInputSelector)

/-- Lines 21-22. -/
def uploadBtn (doc : Document) : Option Element :=
  orElem (findOne doc uploadBtnIds) (querySelector doc uploadBtnSelector)

/-- Lines 31-32. -/
def searchInput (doc : Document) : Option Element :=
  orElem (findOne doc searchInputIds) (querySelector doc searchInputSelector)

/-- Lines 34-35. -/
def searchBtn (doc : Document) : Option Element :=
  orElem (findOne doc searchBtnIds) (querySelector doc searchBtnSelector)

/-- The exceptions the script can meet. -/
inductive JsError where
  | typeError (what : String)
  | hierarchyRequestError
deriving DecidableEq, Repr

/-- The position in tree order of the node a lookup returned. A lookup returns
the first element that passes a test on its fields, so it is the first element
equal to the one returned. -/
def indexOfNode (doc : Document) (e : Element) : Option Nat :=
  doc.findIdx? (fun x => decide (x = e))

/-- The document after `parent.appendChild(child)`, `parent` being the element
at position `i` with depth `d`: the child goes behind the last descendant of
the parent, one level below it. -/
def appendChildAt (doc : Document) (i d : Nat) (tagName : String)
    (attrs : List (String × String)) : Document :=
  let j := i + 1 + ((doc.drop (i + 1)).takeWhile (fun e => decide (d < e.depth))).length
  doc.take j ++ { tagName := tagName, attrs := attrs, depth := d + 1 } :: doc.drop j

/-- The position of `el.parentNode` for the element at position `i` of depth
`d + 1`: the nearest element before it that is one level up. -/
def parentIndex (doc : Document) (i d : Nat) : Option Nat :=
  (List.range i).reverse.find? (fun j =>
    match doc.get? j with
    | some p => decide (p.depth = d)
    | none => false)

/-- Lines 24-29: the status label and the document it leaves. The new `span`
is attached only under `uploadBtn && uploadBtn.parentNode`; the value is what
`document.getElementById('uploadStatus')` then finds. The parent of the root
element is the document itself, which takes no second element child. -/
def uploadStatus (doc : Document) (uploadBtn : Option Element) :
    Except JsError (Option Element × Document) :=
  match findOne doc uploadStatusIds with
  | some el => Except.ok (some el, doc)
  | none =>
    match uploadBtn with
    | none => Except.ok (getElementById doc "uploadStatus", doc)
    | some btn =>
      match indexOfNode doc btn with
      | none => Except.ok (getElementById doc "uploadStatus", doc)
      | some i =>
        match btn.depth with
        | 0 => Except.error JsError.hierarchyRequestError
        | d + 1 =>
          match parentIndex doc i d with
          | none => Except.ok (getElementById doc "uploadStatus", doc)
          | some p =>
            let doc1 := appendChildAt doc p d "span" [("id", "uploadStatus")]
            Except.ok (getElementById doc1 "uploadStatus", doc1)

/-- The position of `document.body`: the first `body` or `frameset` child of
the root element. -/
def bodyIndex (doc : Document) : Option Nat :=
  doc.findIdx? (fun e =>
    decide (e.depth = 1) && (decide (e.tagName = "body") || decide (e.tagName = "frameset")))

/-- Lines 37-46: the results container and the document it leaves. -/
def resultsDiv (doc : Document) : Except JsError (Option Element × Document) :=
  match findOne doc resultsDivIds with
  | some el => Except.ok (some el, doc)
  | none =>
    match getElementById doc "results" with
    | some r => Except.ok (some r, doc)
    | none =>
      match bodyIndex doc with
      | none => Except.error (JsError.typeError "document.body is null")
      | some b =>
        let doc1 := appendChildAt doc b 1 "div" [("id", "results")]
        Except.ok (some { tagName := "div", attrs := [("id", "results")], depth := 2 }, doc1)

/-- The six references the script holds after lines 18-46, and the document. -/
structure Resolved where
  fileInput : Option Element
  uploadBtn : Option Element
  uploadStatus : Option Element
  searchInput : Option Element
  searchBtn : Option Element
  resultsDiv : Option Element
  document : Document
deriving DecidableEq, Repr

/-- Lines 18-46 in order. Lines 48-73 (logging, the `multiple` attribute, the
click that opens the picker) change none of the six references. -/
def init (doc : Document) : Except JsError Resolved :=
  let fi := fileInput doc
  let ub := uploadBtn doc
  match uploadStatus doc ub with
  | Except.error e => Except.error e
  | Except.ok (us, doc1) =>
    let si := searchInput doc1
    let sb := searchBtn doc1
    match resultsDiv doc1 with
    | Except.error e => Except.error e
    | Except.ok (rd, doc2) =>
      Except.ok { fileInput := fi, uploadBtn := ub, uploadStatus := us, searchInput := si,
                  searchBtn := sb, resultsDiv := rd, document := doc2 }

/-! ## The two handlers (lines 76-139) -/

/-- A selected file; only its name reaches the script. -/
structure File where
  name : String
deriving DecidableEq, Repr

/-- The body of a request: the entries of the `FormData` (field name, file,
file name), or the object with the one field `query` given to `JSON.stringify`. -/
inductive Body where
  | formData (entries : List (String × File × String))
  | json (query : String)
deriving DecidableEq, Repr

/-- One call of `fetch`. -/
structure Request where
  url : String
  method : String
  headers : List (String × String)
  body : Body
deriving DecidableEq, Repr

/-- What the two awaits of a handler produce: `fetch` rejects, or it resolves
with a status (`ok` for 2xx) and `resp.json()` either rejects or yields data. -/
inductive Response (α : Type) where
  | networkError
  | malformed (ok : Bool)
  | json (ok : Bool) (data : α)
deriving DecidableEq, Repr

/-- The parsed body of `/upload` as the handler reads it: JSON `null`, or any
other value, of which only the `message` property (a string, if there) is
read. -/
inductive UploadData where
  | null
  | value (message : Option String)
deriving DecidableEq, Repr

/-- The parsed body of `/search` as the handler reads it: JSON `null`, or any
other value, of which the `matches` and `results` properties (arrays, if
there) are read. -/
inductive SearchData where
  | null
  | value (matchesList : Option (List Item)) (resultsList : Option (List Item))
deriving DecidableEq, Repr

/-- What a handler can change: the text of the status label, the children of
the results container, the alerts shown and the requests sent, oldest first. -/
structure Page where
  statusText : String
  results : List Child
  alerts : List String
  requests : List Request
deriving DecidableEq, Repr

/-- The white space and line terminators that `trim()` strips. -/
def isJsWhiteSpace (c : Char) : Bool :=
  let n := c.toNat
  decide (n = 0x9) || decide (n = 0xA) || decide (n = 0xB) || decide (n = 0xC) ||
  decide (n = 0xD) || decide (n = 0x20) || decide (n = 0xA0) || decide (n = 0x1680) ||
  (decide (0x2000 ≤ n) && decide (n ≤ 0x200A)) || decide (n = 0x2028) ||
  decide (n = 0x2029) || decide (n = 0x202F) || decide (n = 0x205F) ||
  decide (n = 0x3000) || decide (n = 0xFEFF)

/-- The string `s.trim()`. -/
def trim (s : String) : String :=
  String.mk (((s.data.dropWhile isJsWhiteSpace).reverse.dropWhile isJsWhiteSpace).reverse)

/-- The assignment `uploadStatus.textContent = text`: a TypeError on `null`. -/
def setStatusText (uploadStatus : Option Element) (text : String) (p : Page) :
    Except JsError Page :=
  match uploadStatus with
  | some _ => Except.ok { p with statusText := text }
  | none => Except.error (JsError.typeError "Cannot set properties of null (setting textContent)")

/-- The assignment `resultsDiv.innerHTML = markup`: a TypeError on `null`. -/
def setResultsHTML (resultsDiv : Option Element) (markup : String) (p : Page) :
    Except JsError Page :=
  match resultsDiv with
  | some _ => Except.ok { p with results := setInnerHTML markup }
  | none => Except.error (JsError.typeError "Cannot set properties of null (setting innerHTML)")

/-- The request of line 94. -/
def uploadRequest (files : List File) : Request :=
  { url := "/upload", method := "POST", headers := [],
    body := Body.formData (files.map (fun f => ("file", f, f.name))) }

/-- Lines 77-106: one run of the `change` listener of the file input.
`files` is `fileInput.files` (`none` when the element has no such property),
`server` answers the request. The result is the page after the run, or the
exception that leaves the listener. -/
def fileInputChange (uploadStatus : Option Element) (files : Option (List File))
    (server : Request → Response UploadData) (p : Page) : Except JsError Page :=
  match files with
  | none => setStatusText uploadStatus "No files selected" p
  | some fs =>
    if fs.length = 0 then setStatusText uploadStatus "No files selected" p
    else
      match setStatusText uploadStatus ("Uploading " ++ Nat.repr fs.length ++ " file(s)...") p with
      | Except.error e => Except.error e
      | Except.ok p1 =>
        let req := uploadRequest fs
        let p2 := { p1 with requests := p1.requests ++ [req] }
        match server req with
        | Response.json ok (UploadData.value message) =>
          if ok then
            setStatusText uploadStatus
              ((orElse message (some ("Uploaded " ++ Nat.repr fs.length ++ " file(s)"))).getD "") p2
          else
            setStatusText uploadStatus ((orElse message (some "Upload failed")).getD "") p2
        | _ => setStatusText uploadStatus "Error uploading files (see console)" p2

/-- The request of lines 122-126. -/
def searchRequest (query : String) : Request :=
  { url := "/search", method := "POST", headers := [("Content-Type", "application/json")],
    body := Body.json query }

/-- Line 132: `data.matches || data.results || []` (an array is truthy, empty
or not). -/
def resultList (matchesList resultsList : Option (List Item)) : List Item :=
  match matchesList with
  | some l => l
  | none =>
    match resultsList with
    | some l => l
    | none => []

/-- Lines 111-138: one run of the `click` listener of the search button.
`value` is `searchInput.value` (`none` when the element has no such
property). -/
def searchClick (expo : JsNumber → String) (resultsDiv : Option Element)
    (value : Option String) (server : Request → Response SearchData) (p : Page) :
    Except JsError Page :=
  let query := trim ((orElse value (some "")).getD "")
  if query.data.isEmpty then
    Except.ok { p with alerts := p.alerts ++ ["Please enter a search query."] }
  else
    match setResultsHTML resultsDiv "<p>Searching…</p>" p with
    | Except.error e => Except.error e
    | Except.ok p1 =>
      let req := searchRequest query
      let p2 := { p1 with requests := p1.requests ++ [req] }
      match server req with
      | Response.json _ (SearchData.value matchesList resultsList) =>
        Except.ok { p2 with
          results := renderResults expo (some (resultList matchesList resultsList)) p2.results }
      | _ => setResultsHTML resultsDiv "<p>Error during search (see console)</p>" p2

/-- Lines 76-77: the `change` listener exists only when a file input was
resolved; it closes over the status label found at start-up. -/
def changeListener (r : Resolved) :
    Option (Option (List File) → (Request → Response UploadData) → Page → Except JsError Page) :=
  match r.fileInput with
  | some _ => some (fileInputChange r.uploadStatus)
  | none => none

/-- Lines 110-111: the `click` listener exists only when both the search button
and the search input were resolved. -/
def clickListener (expo : JsNumber → String) (r : Resolved) :
    Option (Option String → (Request → Response SearchData) → Page → Except JsError Page) :=
  match r.searchBtn, r.searchInput with
  | some _, some _ => some (searchClick expo r.resultsDiv)
  | _, _ => none

/-! ## A page without an upload button -/

/-- The page `<html><head></head><body><input type="file" id="fileInput">
<input id="searchInput"><button id="searchBtn"></button></body></html>`: a file
input and a search form, no upload button and no status label. -/
def pageWithoutButton : Document :=
  [{ tagName := "html", attrs := [], depth := 0 },
   { tagName := "head", attrs := [], depth := 1 },
   { tagName := "body", attrs := [], depth := 1 },
   { tagName := "input", attrs := [("type", "file"), ("id", "fileInput")], depth := 2 },
   { tagName := "input", attrs := [("id", "searchInput")], depth := 2 },
   { tagName := "button", attrs := [("id", "searchBtn")], depth := 2 }]

/-- The page `<html><head></head><body><div><button id="uploadBtn"></button>
<input type="file"></div><p></p></body></html>`: an upload button inside a
`div`, a file input without an id, no status label. -/
def pageWithButton : Document :=
  [{ tagName := "html", attrs := [], depth := 0 },
   { tagName := "head", attrs := [], depth := 1 },
   { tagName := "body", attrs := [], depth := 1 },
   { tagName := "div", attrs := [], depth := 2 },
   { tagName := "button", attrs := [("id", "uploadBtn")], depth := 3 },
   { tagName := "input", attrs := [("type", "file")], depth := 3 },
   { tagName := "p", attrs := [], depth := 2 }]

/-! ## Lemmas about the primitives -/

theorem splitChars_ne_nil (sep : Char) (s : List Char) : splitChars sep s ≠ [] := by
  cases s with
  | nil => simp [splitChars]
  | cons c cs =>
    simp only [splitChars]
    split
    · simp
    · split <;> simp

theorem getLast?_cons_of_ne_nil {α : Type} (a : α) (l : List α) (h : l ≠ []) :
    (a :: l).getLast? = l.getLast? := by
  cases l with
  | nil => exact absurd rfl h
  | cons b t => simp [List.getLast?_cons_cons]

theorem splitChars_last (sep : Char) (s : List Char) :
    ∃ f, (splitChars sep s).getLast? = some f ∧ sep ∉ f ∧
      ((splitChars sep s = [f] ∧ s = f) ∨
       (∃ pre, s = pre ++ sep :: f ∧ 2 ≤ (splitChars sep s).length)) := by
  induction s with
  | nil => exact ⟨[], by simp [splitChars]⟩
  | cons c cs ih =>
    obtain ⟨f, hlast, hsep, hshape⟩ := ih
    by_cases hc : c = sep
    · refine ⟨f, ?_, hsep, Or.inr ?_⟩
      · simp only [splitChars, hc, if_true]
        rw [getLast?_cons_of_ne_nil _ _ (splitChars_ne_nil sep cs)]
        exact hlast
      · rcases hshape with ⟨hl, hs⟩ | ⟨pre, hs, hlen⟩
        · exact ⟨[], by simp [hc, hs], by simp [splitChars, hc, hl]⟩
        · exact ⟨sep :: pre, by simp [hc, hs], by simp [splitChars, hc]; omega⟩
    · rcases hshape with ⟨hl, hs⟩ | ⟨pre, hs, hlen⟩
      · refine ⟨c :: f, ?_, ?_, Or.inl ?_⟩
        · simp [splitChars, hc, hl]
        · simp only [List.mem_cons, not_or]
          exact ⟨fun h => hc h.symm, hsep⟩
        · exact ⟨by simp [splitChars, hc, hl], by simp [hs]⟩
      · refine ⟨f, ?_, hsep, Or.inr ⟨c :: pre, by simp [hs], ?_⟩⟩
        · simp only [splitChars, hc, if_false]
          cases hL : splitChars sep cs with
          | nil => exact absurd hL (splitChars_ne_nil sep cs)
          | cons seg rest =>
            rw [hL] at hlast hlen
            simp only
            have hr : rest ≠ [] := by
              intro h; rw [h] at hlen; simp at hlen
            rw [getLast?_cons_of_ne_nil _ _ hr]
            rw [getLast?_cons_of_ne_nil _ _ hr] at hlast
            exact hlast
        · simp only [splitChars, hc, if_false]
          cases hL : splitChars sep cs with
          | nil => exact absurd hL (splitChars_ne_nil sep cs)
          | cons seg rest =>
            rw [hL] at hlen
            simpa using hlen

theorem truthy_iff (v : Option String) :
    truthy v = true ↔ ∃ s, v = some s ∧ s ≠ "" := by
  cases v with
  | none => simp [truthy]
  | some s =>
    have h : s.data = [] ↔ s = "" := by
      constructor
      · intro h
        cases s
        simp_all
      · intro h
        rw [h]
    simp [truthy, h]

theorem orElse_truthy_or_none (a b : Option String) :
    truthy (orElse (orElse a b) none) = true ∨ orElse (orElse a b) none = none := by
  unfold orElse
  by_cases ha : truthy a = true
  · simp [ha]
  · by_cases hb : truthy b = true
    · simp [ha, hb]
    · simp [ha, hb]

theorem truthy_uploads (f : String) : truthy (some ("/uploads/" ++ f)) = true := by
  simp [truthy, String.data_append]

theorem orElse_of_truthy (a b : Option String) (h : truthy a = true) : orElse a b = a := by
  simp [orElse, h]

theorem orElse_of_not_truthy (a b : Option String) (h : ¬ truthy a = true) :
    orElse a b = b := by
  simp [orElse, h]

theorem normalise_obj_url (o : ItemObject) :
    (normalise (Item.obj o)).url =
      (if truthy o.url then o.url
       else match (normalise (Item.obj o)).filename with
         | some f => some ("/uploads/" ++ f)
         | none => none) := by
  simp only [normalise]
  rcases orElse_truthy_or_none o.filename o.name with h | h
  · cases hf : orElse (orElse o.filename o.name) none with
    | none => rw [hf] at h; simp [truthy] at h
    | some f =>
      rw [hf] at h
      have hu1 : uploadsUrl "/uploads/" (some f) = some ("/uploads/" ++ f) := by
        simp [uploadsUrl, h]
      rw [hu1]
      by_cases hu : truthy o.url = true
      · rw [orElse_of_truthy o.url _ hu, orElse_of_truthy o.url _ hu]
        simp [hu]
      · rw [orElse_of_not_truthy o.url _ hu, orElse_of_truthy _ _ (truthy_uploads f)]
        simp [hu]
  · rw [h]
    have hn : ∀ p : String, uploadsUrl p none = none := by
      intro p
      simp [uploadsUrl, truthy]
    rw [hn, hn]
    by_cases hu : truthy o.url = true
    · rw [orElse_of_truthy o.url _ hu, orElse_of_truthy o.url _ hu]
      simp [hu]
    · rw [orElse_of_not_truthy o.url _ hu, orElse_of_not_truthy none _ (by simp [truthy])]
      simp [hu]

theorem hundredths_near (x : JsNumber) :
    |(x.hundredths : ℚ) / 100 - x.magnitude| ≤ 1 / 200 := by
  obtain ⟨neg, m, e⟩ := x
  cases e with
  | ofNat e =>
    have h : (JsNumber.mk neg m (Int.ofNat e)).magnitude = (m : ℚ) * 2 ^ e := by
      simp [JsNumber.magnitude]
    have h2 : ((JsNumber.mk neg m (Int.ofNat e)).hundredths : ℚ) = 100 * m * 2 ^ e := by
      simp [JsNumber.hundredths]
    rw [h, h2]
    have : (100 * (m : ℚ) * 2 ^ e) / 100 - m * 2 ^ e = 0 := by ring
    rw [this]
    norm_num
  | negSucc k =>
    have hP : (0 : ℚ) < 2 ^ (k + 1) := by positivity
    have hPn : 0 < 2 * 2 ^ (k + 1) := by positivity
    have h : (JsNumber.mk neg m (Int.negSucc k)).magnitude = (m : ℚ) / 2 ^ (k + 1) := by
      simp [JsNumber.magnitude, zpow_negSucc, div_eq_mul_inv]
    have h2 : (JsNumber.mk neg m (Int.negSucc k)).hundredths
        = (200 * m + 2 ^ (k + 1)) / (2 * 2 ^ (k + 1)) := rfl
    rw [h, h2]
    generalize hq : (200 * m + 2 ^ (k + 1)) / (2 * 2 ^ (k + 1)) = q
    have hle : 2 * 2 ^ (k + 1) * q ≤ 200 * m + 2 ^ (k + 1) := by
      rw [← hq]; exact Nat.mul_div_le _ _
    have hlt : 200 * m + 2 ^ (k + 1) < 2 * 2 ^ (k + 1) * (q + 1) := by
      rw [← hq]; exact Nat.lt_mul_div_succ _ hPn
    have hle' : (2 * 2 ^ (k + 1) * q : ℚ) ≤ 200 * m + 2 ^ (k + 1) := by exact_mod_cast hle
    have hlt' : (200 * m + 2 ^ (k + 1) : ℚ) < 2 * 2 ^ (k + 1) * (q + 1) := by exact_mod_cast hlt
    generalize hPq : ((2 : ℚ) ^ (k + 1)) = P at hP hle' hlt'
    have hm : (m : ℚ) = (m : ℚ) / P * P := by
      field_simp
    generalize (m : ℚ) / P = y at hm
    rw [hm] at hle' hlt'
    have h1 : P * (2 * (q : ℚ)) ≤ P * (200 * y + 1) := by linarith
    have h3 : P * (200 * y + 1) < P * (2 * ((q : ℚ) + 1)) := by linarith
    have h1' := le_of_mul_le_mul_left h1 hP
    have h3' := lt_of_mul_lt_mul_left h3 (le_of_lt hP)
    rw [abs_le]
    constructor <;> linarith

theorem inFixedRange_iff (x : JsNumber) :
    x.inFixedRange = true ↔ x.magnitude < 10 ^ 21 := by
  obtain ⟨neg, m, e⟩ := x
  cases e with
  | ofNat e =>
    simp only [JsNumber.inFixedRange, JsNumber.magnitude, decide_eq_true_eq]
    rw [show (Int.ofNat e) = ((e : ℕ) : ℤ) from rfl, zpow_natCast]
    constructor
    · intro h
      exact_mod_cast h
    · intro h
      exact_mod_cast h
  | negSucc k =>
    simp only [JsNumber.inFixedRange, JsNumber.magnitude, decide_eq_true_eq, zpow_negSucc]
    have hP : (0 : ℚ) < 2 ^ (k + 1) := by positivity
    rw [← div_eq_mul_inv, div_lt_iff₀ hP]
    constructor
    · intro h
      exact_mod_cast h
    · intro h
      exact_mod_cast h

theorem foldl_append_singleton {α β : Type} (f : α → β) (items : List α) (init : List β) :
    items.foldl (fun acc item => acc ++ [f item]) init = init ++ items.map f := by
  induction items generalizing init with
  | nil => simp
  | cons x xs ih => simp [ih]

/-! ## Normal form of an item (C1, C5) -/

/-- C5, counterexample: a `url` field that is present but empty is not the
`url` of the record (the uploads path is derived instead), and a `filename`
field that is present but empty is not its `filename`. -/
theorem empty_field_is_not_used :
    (normalise (Item.obj ⟨some "a.jpg", none, some "", none, none⟩)).url
        = some "/uploads/a.jpg" ∧
    (normalise (Item.obj ⟨some "a.jpg", none, some "", none, none⟩)).url ≠ some "" ∧
    (normalise (Item.obj ⟨some "", none, none, none, none⟩)).filename = none := by
  decide

/-- C5, amended: for a string `s` the url is `s` and the filename is the part
of `s` behind its last `/` (all of `s` when it has none); for an object the
filename is its `filename` field when that is a non-empty string, else its
`name` field when that is a non-empty string, else `null`; the url is its `url`
field when that is a non-empty string, and otherwise `/uploads/` followed by
the derived filename when there is one, and `null` when there is none. The
`/static/uploads/` form is never produced: "/uploads/cat.jpg" gives that url
and the filename "cat.jpg", and `filename: "clip.mp4"` gives the url
"/uploads/clip.mp4". -/
theorem normalise_by_wire_shape :
    (∀ s : String, (normalise (Item.str s)).url = some s ∧
      ∃ f : List Char, (normalise (Item.str s)).filename = some (String.mk f) ∧ '/' ∉ f ∧
        (s.data = f ∨ ∃ pre, s.data = pre ++ '/' :: f)) ∧
    (∀ o : ItemObject,
      (normalise (Item.obj o)).filename =
        (if truthy o.filename then o.filename else if truthy o.name then o.name else none) ∧
      (normalise (Item.obj o)).url =
        (if truthy o.url then o.url
         else match (normalise (Item.obj o)).filename with
           | some f => some ("/uploads/" ++ f)
           | none => none)) ∧
    normalise (Item.str "/uploads/cat.jpg")
      = { filename := some "cat.jpg", url := some "/uploads/cat.jpg", score := none } ∧
    normalise (Item.obj ⟨some "clip.mp4", none, none, none, none⟩)
      = { filename := some "clip.mp4", url := some "/uploads/clip.mp4", score := none } := by
  refine ⟨fun s => ⟨rfl, ?_⟩, fun o => ⟨?_, ?_⟩, by decide, by decide⟩
  · obtain ⟨f, hlast, hsep, hshape⟩ := splitChars_last '/' s.data
    refine ⟨f, ?_, hsep, ?_⟩
    · simp [normalise, pop, split, List.getLast?_map, hlast]
    · rcases hshape with ⟨_, hs⟩ | ⟨pre, hs, _⟩
      · exact Or.inl hs
      · exact Or.inr ⟨pre, hs⟩
  · simp only [normalise, orElse]
    by_cases h1 : truthy o.filename = true
    · simp [h1]
    · by_cases h2 : truthy o.name = true
      · simp [h1, h2]
      · simp [h1, h2]
  · exact normalise_obj_url o

/-- C1, counterexample: an object with neither `url` nor `filename` nor `name`
(here only a `similarity`) is normalised to a `null` url, and its card is an
image whose source is `null`. -/
theorem url_null_for_object_without_names :
    (normalise (Item.obj ⟨none, none, none, some ⟨false, 1, -1⟩, none⟩)).url = none ∧
    (buildCard (fun _ => "") (Item.obj ⟨none, none, none, some ⟨false, 1, -1⟩, none⟩)).media
      = Media.img none ""
          [("width", "100%"), ("height", "160px"), ("objectFit", "cover"),
           ("borderRadius", "8px")] := by
  decide

/-- C1, amended: the url normalised from an item is non-null exactly when the
item is a string, or an object with a non-empty `url`, `filename` or `name`;
the media element of the card is given that url as its source. -/
theorem url_nonnull_iff (expo : JsNumber → String) (item : Item) :
    ((normalise item).url ≠ none ↔
      match item with
      | Item.str _ => True
      | Item.obj o => truthy o.url = true ∨ truthy o.filename = true ∨ truthy o.name = true) ∧
    (buildCard expo item).media.src = (normalise item).url := by
  constructor
  · cases item with
    | str s => simp [normalise]
    | obj o =>
      rw [normalise_obj_url]
      simp only [normalise]
      by_cases hu : truthy o.url = true
      · have hne : o.url ≠ none := by
          intro h
          rw [h] at hu
          simp [truthy] at hu
        simp [hu, hne]
      · by_cases h1 : truthy o.filename = true
        · rw [orElse_of_truthy o.filename _ h1, orElse_of_truthy o.filename _ h1]
          cases hf : o.filename with
          | none => rw [hf] at h1; simp [truthy] at h1
          | some f =>
            rw [hf] at h1
            simp [hu, h1]
        · by_cases h2 : truthy o.name = true
          · rw [orElse_of_not_truthy o.filename _ h1, orElse_of_truthy o.name _ h2]
            cases hn : o.name with
            | none => rw [hn] at h2; simp [truthy] at h2
            | some f =>
              rw [hn] at h2
              simp [hu, h1, h2]
          · rw [orElse_of_not_truthy o.filename _ h1, orElse_of_not_truthy o.name _ h2]
            simp [hu, h1, h2]
  · simp only [buildCard]
    split <;> rfl

/-! ## Cards (C6, C7, C8) -/

/-- C6, the failing input: a name without any `.` has no extension, yet when
the whole name is one of the five words the card is a video element. -/
theorem dotless_name_renders_video :
    isVideo (some "mp4") = true ∧
    (buildCard (fun _ => "") (Item.str "mp4")).media
      = Media.video (some "mp4") true [("width", "100%"), ("borderRadius", "8px")] ∧
    (buildCard (fun _ => "") (Item.obj ⟨some "mov", none, none, none, none⟩)).media
      = Media.video (some "/uploads/mov") true [("width", "100%"), ("borderRadius", "8px")] := by
  decide

/-- C7, counterexample: a record with filename "x" and the score `1e21` (the
double `5^21 * 2^21`) is captioned "x — 1e+21", and one with the score
`-1.5e22` "x — -1.5e+22", not with two decimals: from `10^21` on `toFixed(2)`
returns `String(score)`, whatever that is. -/
theorem caption_beyond_fixed_range :
    (buildCard exponentialForm
      (Item.obj ⟨some "x", none, none, some ⟨false, 476837158203125, 21⟩, none⟩)).caption
      = "x — 1e+21" ∧
    (buildCard exponentialForm
      (Item.obj ⟨some "x", none, none, none, some ⟨true, 7152557373046875, 21⟩⟩)).caption
      = "x — -1.5e+22" ∧
    (JsNumber.mk false 476837158203125 21).magnitude = 10 ^ 21 ∧
    ∀ expo : JsNumber → String,
      (buildCard expo
        (Item.obj ⟨some "x", none, none, some ⟨false, 476837158203125, 21⟩, none⟩)).caption
        = "x — " ++ expo ⟨false, 476837158203125, 21⟩ := by
  refine ⟨?_, ?_, ?_, fun expo => rfl⟩
  · set_option maxRecDepth 100000 in decide
  · set_option maxRecDepth 100000 in decide
  · simp only [JsNumber.magnitude]
    norm_num

/-- C7, amended: the score of a record is its `similarity`, else its `score`,
else absent (a string has none); the caption is the filename alone without a
score and the filename, " — " and `score.toFixed(2)` with one, a missing
filename being written "null"; for a score below `10^21` in absolute value
`toFixed(2)` is a minus sign when the score is negative, the integer part, a
point and exactly two digits, the number shown being within 0.005 of the
score, and from `10^21` on it is `String(score)` instead. The record
`filename: "clip.mp4", similarity: 0.8765` is captioned "clip.mp4 — 0.88". -/
theorem caption_text_spec (expo : JsNumber → String) (item : Item) :
    (normalise item).score =
      (match item with
       | Item.str _ => none
       | Item.obj o =>
         match o.similarity with
         | some x => some x
         | none => o.score) ∧
    (buildCard expo item).caption =
      (match (normalise item).filename, (normalise item).score with
       | some f, none => f
       | none, none => "null"
       | some f, some x => f ++ (" — " ++ toFixed2 expo x)
       | none, some x => "null" ++ (" — " ++ toFixed2 expo x)) ∧
    (∀ x : JsNumber, x.magnitude < 10 ^ 21 →
      ∃ n : Nat,
        toFixed2 expo x =
          (if x.neg = true ∧ x.mant ≠ 0 then "-" else "") ++ Nat.repr (n / 100) ++ "." ++
            String.mk [Char.ofNat (48 + n / 10 % 10), Char.ofNat (48 + n % 10)] ∧
        |(n : ℚ) / 100 - x.magnitude| ≤ 1 / 200) ∧
    (∀ x : JsNumber, 10 ^ 21 ≤ x.magnitude → toFixed2 expo x = expo x) ∧
    (buildCard expo
      (Item.obj ⟨some "clip.mp4", none, none, some ⟨false, 7894810146780479, -53⟩, none⟩)).caption
      = "clip.mp4 — 0.88" := by
  refine ⟨?_, ?_, ?_, ?_, ?_⟩
  · cases item with
    | str s => rfl
    | obj o =>
      simp only [normalise, nullish]
      cases o.similarity <;> cases o.score <;> rfl
  · simp only [buildCard, captionText]
    cases (normalise item).filename <;> cases (normalise item).score <;> simp [toStr]
  · intro x hx
    refine ⟨x.hundredths, ?_, hundredths_near x⟩
    simp [toFixed2, (inFixedRange_iff x).mpr hx, JsNumber.isNegative, digitChar]
  · intro x hx
    have hnot : ¬ x.inFixedRange = true := fun h => absurd ((inFixedRange_iff x).mp h) (not_lt.mpr hx)
    simp [toFixed2, hnot]
  · rfl

/-- C7, witness: the double nearest to 0.8765 is below `10^21`, and its
`toFixed(2)` is built from an integer of hundredths within 0.005 of it. -/
theorem caption_text_spec_witness :
    (JsNumber.mk false 7894810146780479 (-53)).magnitude < 10 ^ 21 ∧
    ∃ n : Nat,
      toFixed2 (fun _ => "") (JsNumber.mk false 7894810146780479 (-53)) =
        (if (JsNumber.mk false 7894810146780479 (-53)).neg = true ∧
            (JsNumber.mk false 7894810146780479 (-53)).mant ≠ 0 then "-" else "") ++
          Nat.repr (n / 100) ++ "." ++
          String.mk [Char.ofNat (48 + n / 10 % 10), Char.ofNat (48 + n % 10)] ∧
      |(n : ℚ) / 100 - (JsNumber.mk false 7894810146780479 (-53)).magnitude| ≤ 1 / 200 :=
  ⟨(inFixedRange_iff _).mp (by decide),
   (caption_text_spec (fun _ => "") (Item.str "")).2.2.1 _ ((inFixedRange_iff _).mp (by decide))⟩

/-- C8: whatever the container held before, after `renderResults` it holds
exactly the single "No matches found." placeholder when the list is absent or
empty, and otherwise exactly one card per record, the i-th child being the
card built from the i-th record. -/
theorem renderResults_replaces_content (expo : JsNumber → String)
    (results : Option (List Item)) (content content2 : List Child) :
    renderResults expo results content =
      (match results with
       | none => [Child.html "<p>No matches found.</p>"]
       | some [] => [Child.html "<p>No matches found.</p>"]
       | some (x :: xs) => (x :: xs).map (fun item => Child.card (buildCard expo item))) ∧
    renderResults expo results content = renderResults expo results content2 ∧
    (∀ items : List Item, items ≠ [] →
      (renderResults expo (some items) content).length = items.length ∧
      ∀ i : Nat, (renderResults expo (some items) content).get? i
        = (items.get? i).map (fun item => Child.card (buildCard expo item))) := by
  have key : ∀ (c : List Child) (x : Item) (xs : List Item),
      renderResults expo (some (x :: xs)) c
        = (x :: xs).map (fun item => Child.card (buildCard expo item)) := by
    intro c x xs
    simp only [renderResults, List.length_cons, Nat.add_one_ne_zero, if_false]
    rw [foldl_append_singleton (fun item => Child.card (buildCard expo item))]
    rfl
  refine ⟨?_, ?_, ?_⟩
  · cases results with
    | none => rfl
    | some items =>
      cases items with
      | nil => rfl
      | cons x xs => exact key content x xs
  · cases results with
    | none => rfl
    | some items =>
      cases items with
      | nil => rfl
      | cons x xs => rw [key content x xs, key content2 x xs]
  · intro items hne
    cases items with
    | nil => exact absurd rfl hne
    | cons x xs =>
      rw [key content x xs]
      refine ⟨by simp, fun i => ?_⟩
      rw [List.get?_eq_getElem?, List.get?_eq_getElem?, List.getElem?_map]

/-- C8, witness: the response `matches: ["/uploads/cat.jpg"]` rendered over a
stale placeholder leaves exactly one card, an image of that source captioned
"cat.jpg". -/
theorem renderResults_replaces_content_witness :
    [Item.str "/uploads/cat.jpg"] ≠ [] ∧
    (renderResults (fun _ => "") (some [Item.str "/uploads/cat.jpg"])
        [Child.html "<p>Searching…</p>"]).length = 1 ∧
    (renderResults (fun _ => "") (some [Item.str "/uploads/cat.jpg"])
        [Child.html "<p>Searching…</p>"]).get? 0
      = some (Child.card
          { className := "result-card"
            style := [("margin", "8px"), ("width", "220px")]
            media := Media.img (some "/uploads/cat.jpg") "cat.jpg"
              [("width", "100%"), ("height", "160px"), ("objectFit", "cover"),
               ("borderRadius", "8px")]
            caption := "cat.jpg"
            captionStyle := [("fontSize", "0.9rem"), ("margin", "8px 0 0 0"),
              ("textAlign", "center"), ("wordBreak", "break-word")] }) :=
  ⟨by decide,
   ((renderResults_replaces_content (fun _ => "") (some [Item.str "/uploads/cat.jpg"])
      [Child.html "<p>Searching…</p>"] []).2.2 [Item.str "/uploads/cat.jpg"] (by decide)).1,
   ((renderResults_replaces_content (fun _ => "") (some [Item.str "/uploads/cat.jpg"])
      [Child.html "<p>Searching…</p>"] []).2.2 [Item.str "/uploads/cat.jpg"] (by decide)).2 0⟩

/-! ## Element resolution (C2, C4) -/

theorem orElem_eq_some (a b : Option Element) (e : Element) :
    orElem a b = some e ↔ a = some e ∨ (a = none ∧ b = some e) := by
  cases a <;> simp [orElem]

theorem orElem_eq_none (a b : Option Element) :
    orElem a b = none ↔ a = none ∧ b = none := by
  cases a <;> simp [orElem]

theorem findOne_eq_none (doc : Document) (ids : List String) :
    findOne doc ids = none ↔ ∀ id ∈ ids, getElementById doc id = none := by
  induction ids with
  | nil => simp [findOne]
  | cons id rest ih =>
    simp only [findOne, List.mem_cons, forall_eq_or_imp]
    cases h : getElementById doc id with
    | none => simpa using ih
    | some el => simp

theorem findOne_eq_some (doc : Document) (ids : List String) (e : Element) :
    findOne doc ids = some e ↔
      ∃ pre id post, ids = pre ++ id :: post ∧
        (∀ j ∈ pre, getElementById doc j = none) ∧ getElementById doc id = some e := by
  induction ids with
  | nil => simp [findOne]
  | cons id rest ih =>
    simp only [findOne]
    cases h : getElementById doc id with
    | some el =>
      constructor
      · intro he
        exact ⟨[], id, rest, rfl, by simp, by rw [h]; exact he⟩
      · rintro ⟨pre, id2, post, hids, hpre, hget⟩
        cases pre with
        | nil =>
          simp only [List.nil_append, List.cons.injEq] at hids
          rw [← hids.1, h] at hget
          exact hget
        | cons j pre2 =>
          simp only [List.cons_append, List.cons.injEq] at hids
          have := hpre j (by simp)
          rw [← hids.1, h] at this
          exact absurd this (by simp)
    | none =>
      simp only
      rw [ih]
      constructor
      · rintro ⟨pre, id2, post, hids, hpre, hget⟩
        refine ⟨id :: pre, id2, post, by simp [hids], ?_, hget⟩
        intro j hj
        rcases List.mem_cons.mp hj with rfl | hj
        · exact h
        · exact hpre j hj
      · rintro ⟨pre, id2, post, hids, hpre, hget⟩
        cases pre with
        | nil =>
          simp only [List.nil_append, List.cons.injEq] at hids
          rw [← hids.1, h] at hget
          exact absurd hget (by simp)
        | cons j pre2 =>
          simp only [List.cons_append, List.cons.injEq] at hids
          exact ⟨pre2, id2, post, hids.2, fun k hk => hpre k (by simp [hk]), hget⟩

/-- C4: `findOne` returns the element of the earliest listed id that names an
element of the document, and `null` exactly when no listed id does;
`getElementById` and `querySelector` return the first match in tree order; and
each of the four roles without a synthesised element (file input, upload
button, search input, search button) resolves to the result of `findOne` when
that is not `null`, else to the first match of its selector, and to `null`
(a value, not an exception) when neither matches. -/
theorem findOne_first_match (doc : Document) (ids : List String) :
    (∀ e : Element, findOne doc ids = some e ↔
      ∃ pre id post, ids = pre ++ id :: post ∧
        (∀ j ∈ pre, getElementById doc j = none) ∧ getElementById doc id = some e) ∧
    (findOne doc ids = none ↔ ∀ id ∈ ids, ∀ x ∈ doc, x.id ≠ some id) ∧
    (∀ (id : String) (e : Element), getElementById doc id = some e ↔
      e.id = some id ∧ ∃ before after, doc = before ++ e :: after ∧
        ∀ x ∈ before, x.id ≠ some id) ∧
    (∀ (sel : List Compound) (e : Element), querySelector doc sel = some e ↔
      matchesSelector sel e = true ∧ ∃ before after, doc = before ++ e :: after ∧
        ∀ x ∈ before, matchesSelector sel x = false) ∧
    (∀ sel : List Compound, querySelector doc sel = none ↔
      ∀ x ∈ doc, matchesSelector sel x = false) ∧
    (∀ e : Element,
      (fileInput doc = some e ↔ findOne doc fileInputIds = some e ∨
        (findOne doc fileInputIds = none ∧ querySelector doc fileInputSelector = some e)) ∧
      (uploadBtn doc = some e ↔ findOne doc uploadBtnIds = some e ∨
        (findOne doc uploadBtnIds = none ∧ querySelector doc uploadBtnSelector = some e)) ∧
      (searchInput doc = some e ↔ findOne doc searchInputIds = some e ∨
        (findOne doc searchInputIds = none ∧ querySelector doc searchInputSelector = some e)) ∧
      (searchBtn doc = some e ↔ findOne doc searchBtnIds = some e ∨
        (findOne doc searchBtnIds = none ∧ querySelector doc searchBtnSelector = some e))) ∧
    (fileInput doc = none ↔
      findOne doc fileInputIds = none ∧ querySelector doc fileInputSelector = none) ∧
    (uploadBtn doc = none ↔
      findOne doc uploadBtnIds = none ∧ querySelector doc uploadBtnSelector = none) ∧
    (searchInput doc = none ↔
      findOne doc searchInputIds = none ∧ querySelector doc searchInputSelector = none) ∧
    (searchBtn doc = none ↔
      findOne doc searchBtnIds = none ∧ querySelector doc searchBtnSelector = none) := by
  refine ⟨findOne_eq_some doc ids, ?_, ?_, ?_, ?_, ?_, orElem_eq_none _ _, orElem_eq_none _ _,
    orElem_eq_none _ _, orElem_eq_none _ _⟩
  · rw [findOne_eq_none]
    simp [getElementById]
  · intro id e
    simp only [getElementById, List.find?_eq_some]
    simp
  · intro sel e
    simp only [querySelector, List.find?_eq_some]
    simp
  · intro sel
    simp [querySelector]
  · intro e
    exact ⟨orElem_eq_some _ _ _, orElem_eq_some _ _ _, orElem_eq_some _ _ _,
      orElem_eq_some _ _ _⟩

/-- C2, the failing input: on a page with a file input and a search form but
no upload button and no status label, start-up completes with the status label
`null`: the new `span` is never attached, so the lookup by id finds nothing.
The results container is created and attached to the body. -/
theorem status_label_null_without_button :
    init pageWithoutButton = Except.ok
      { fileInput := some { tagName := "input",
                            attrs := [("type", "file"), ("id", "fileInput")], depth := 2 }
        uploadBtn := none
        uploadStatus := none
        searchInput := some { tagName := "input", attrs := [("id", "searchInput")], depth := 2 }
        searchBtn := some { tagName := "button", attrs := [("id", "searchBtn")], depth := 2 }
        resultsDiv := some { tagName := "div", attrs := [("id", "results")], depth := 2 }
        document := pageWithoutButton ++
          [{ tagName := "div", attrs := [("id", "results")], depth := 2 }] } := by
  rfl

/-! ## The handlers (C3, C9, C10) -/

/-- C3, the failing input: on the page without an upload button the `change`
listener is registered and every run of it, whatever the selection and the
server, ends in a TypeError thrown at the first write to the status label
(line 80 or 85, both outside the `try`). -/
theorem change_listener_throws (files : Option (List File))
    (server : Request → Response UploadData) (p : Page) :
    ∃ r h, init pageWithoutButton = Except.ok r ∧ changeListener r = some h ∧
      h files server p =
        Except.error (JsError.typeError "Cannot set properties of null (setting textContent)") := by
  refine ⟨_, fileInputChange none, rfl, rfl, ?_⟩
  cases files with
  | none => rfl
  | some fs =>
    simp only [fileInputChange]
    split <;> rfl

/-- C9, counterexample: two files are selected and `/upload` answers 200 with
the object `message: ""`; the message field is present, yet the final status
text is "Uploaded 2 file(s)", not the message. -/
theorem empty_message_is_replaced :
    (fileInputChange (some { tagName := "span", attrs := [("id", "uploadStatus")], depth := 2 })
      (some [{ name := "a.png" }, { name := "b.png" }])
      (fun _ => Response.json true (UploadData.value (some "")))
      { statusText := "", results := [], alerts := [], requests := [] }).toOption.map
        Page.statusText
      = some "Uploaded 2 file(s)" := by
  decide

/-- C9, amended: for a non-empty selection of N files and a JSON object
returned by `/upload`, the final status text is the `message` field when that
is a non-empty string, whatever the HTTP status; when `message` is absent or
empty it is "Uploaded N file(s)" on a 2xx status and "Upload failed"
otherwise. The run ends without an exception. -/
theorem upload_status_after_response (el : Element) (files : List File)
    (server : Request → Response UploadData) (p : Page) (ok : Bool) (message : Option String)
    (hfiles : files ≠ [])
    (hresp : server (uploadRequest files) = Response.json ok (UploadData.value message)) :
    ∃ q, fileInputChange (some el) (some files) server p = Except.ok q ∧
      q.statusText =
        (match message with
         | some m =>
           if m ≠ "" then m
           else if ok then "Uploaded " ++ Nat.repr files.length ++ " file(s)"
           else "Upload failed"
         | none =>
           if ok then "Uploaded " ++ Nat.repr files.length ++ " file(s)"
           else "Upload failed") := by
  have hlen : ¬ files.length = 0 := by
    intro h
    exact hfiles (List.length_eq_zero.mp h)
  simp only [fileInputChange, hlen, if_false, setStatusText, hresp]
  cases ok <;> cases message with
  | none => exact ⟨_, rfl, rfl⟩
  | some m =>
    by_cases hm : m = ""
    · subst hm
      exact ⟨_, rfl, rfl⟩
    · have ht : truthy (some m) = true := (truthy_iff (some m)).mpr ⟨m, rfl, hm⟩
      refine ⟨_, rfl, ?_⟩
      simp [orElse, ht, hm]

/-- C9, witness: three files, status 500 and the message "disk full". -/
theorem upload_status_after_response_witness :
    ∃ q, fileInputChange (some { tagName := "span", attrs := [], depth := 2 })
        (some [{ name := "a" }, { name := "b" }, { name := "c" }])
        (fun _ => Response.json false (UploadData.value (some "disk full")))
        { statusText := "", results := [], alerts := [], requests := [] } = Except.ok q ∧
      q.statusText = "disk full" :=
  upload_status_after_response { tagName := "span", attrs := [], depth := 2 }
    [{ name := "a" }, { name := "b" }, { name := "c" }]
    (fun _ => Response.json false (UploadData.value (some "disk full")))
    { statusText := "", results := [], alerts := [], requests := [] } false (some "disk full")
    (by decide) rfl

/-- C10: when the value of the search input is missing or empty after
trimming, a click sends no request, adds exactly the one alert "Please enter a
search query.", and leaves the results container (and everything else) as it
was; and on any click, the requests sent are either none or the single
`/search` request whose query is the trimmed value, which is then non-empty. -/
theorem empty_query_sends_nothing (expo : JsNumber → String) (resultsDiv : Option Element)
    (value : Option String) (server : Request → Response SearchData) (p : Page) :
    ((∀ s, value = some s → trim s = "") →
      searchClick expo resultsDiv value server p = Except.ok
        { statusText := p.statusText, results := p.results,
          alerts := p.alerts ++ ["Please enter a search query."],
          requests := p.requests }) ∧
    (∀ q, searchClick expo resultsDiv value server p = Except.ok q →
      (q.requests = p.requests ∧ ∀ s, value = some s → trim s = "") ∨
      (∃ s, value = some s ∧ trim s ≠ "" ∧
        q.requests = p.requests ++ [searchRequest (trim s)])) := by
  have hval : (orElse value (some "")).getD "" = value.getD "" := by
    cases value with
    | none => rfl
    | some s =>
      by_cases ht : truthy (some s) = true
      · rw [orElse_of_truthy _ _ ht]
      · rw [orElse_of_not_truthy _ _ ht]
        have hs : s = "" := by
          by_contra hne
          exact ht ((truthy_iff (some s)).mpr ⟨s, rfl, hne⟩)
        simp [hs]
  have hempty : ∀ t : String, t.data.isEmpty = true ↔ t = "" := by
    intro t
    cases t with
    | mk d => cases d <;> simp [String.ext_iff]
  have htrim : trim "" = "" := by decide
  have hstep : ∀ q, searchClick expo resultsDiv value server p = Except.ok q →
      ¬ trim (value.getD "") = "" →
      q.requests = p.requests ++ [searchRequest (trim (value.getD ""))] := by
    intro q hok hq
    have hq2 : (trim (value.getD "")).data.isEmpty = false := by
      cases h : (trim (value.getD "")).data.isEmpty with
      | false => rfl
      | true => exact absurd ((hempty _).mp h) hq
    simp only [searchClick, hval, hq2, Bool.false_eq_true, if_false] at hok
    cases resultsDiv with
    | none => simp [setResultsHTML] at hok
    | some el =>
      simp only [setResultsHTML] at hok
      cases hsrv : server (searchRequest (trim (value.getD ""))) with
      | networkError =>
        rw [hsrv] at hok
        simp only [Except.ok.injEq] at hok
        rw [← hok]
      | malformed ok =>
        rw [hsrv] at hok
        simp only [Except.ok.injEq] at hok
        rw [← hok]
      | json ok data =>
        rw [hsrv] at hok
        cases data with
        | null =>
          simp only [Except.ok.injEq] at hok
          rw [← hok]
        | value m r =>
          simp only [Except.ok.injEq] at hok
          rw [← hok]
  have hstop : trim (value.getD "") = "" →
      searchClick expo resultsDiv value server p = Except.ok
        { statusText := p.statusText, results := p.results,
          alerts := p.alerts ++ ["Please enter a search query."],
          requests := p.requests } := by
    intro hq
    have hq2 : (trim (value.getD "")).data.isEmpty = true := (hempty _).mpr hq
    simp only [searchClick, hval, hq2, if_true]
  constructor
  · intro h
    apply hstop
    cases value with
    | none => exact htrim
    | some s => exact h s rfl
  · intro q hok
    by_cases hq : trim (value.getD "") = ""
    · left
      rw [hstop hq] at hok
      simp only [Except.ok.injEq] at hok
      refine ⟨by rw [← hok], fun s hs => ?_⟩
      rw [hs] at hq
      exact hq
    · right
      cases value with
      | none => exact absurd htrim hq
      | some s => exact ⟨s, rfl, hq, hstep q hok hq⟩

/-- C10, witness: the value is three blanks; the click alerts once and sends
nothing. -/
theorem empty_query_sends_nothing_witness :
    (∀ s, some "   " = some s → trim s = "") ∧
    searchClick (fun _ => "") (some { tagName := "div", attrs := [], depth := 2 })
        (some "   ") (fun _ => Response.networkError)
        { statusText := "", results := [Child.html "<p>old</p>"], alerts := [],
          requests := [] }
      = Except.ok
        { statusText := "", results := [Child.html "<p>old</p>"],
          alerts := ["Please enter a search query."], requests := [] } :=
  ⟨fun s hs => by cases hs; decide,
   (empty_query_sends_nothing (fun _ => "") (some { tagName := "div", attrs := [], depth := 2 })
      (some "   ") (fun _ => Response.networkError)
      { statusText := "", results := [Child.html "<p>old</p>"], alerts := [],
        requests := [] }).1 (fun s hs => by cases hs; decide)⟩

/-! ## Behaviour away from the defects -/

theorem last_segment_unique (c : Char) (a b x y : List Char)
    (h : a ++ c :: x = b ++ c :: y) (hx : c ∉ x) (hy : c ∉ y) : x = y := by
  rcases List.append_eq_append_iff.mp h with ⟨t, hb, ht⟩ | ⟨t, ha, ht⟩
  · cases t with
    | nil =>
      simp only [List.nil_append, List.cons.injEq, true_and] at ht
      exact ht
    | cons d t2 =>
      simp only [List.cons_append, List.cons.injEq] at ht
      exact absurd (by rw [ht.2]; simp) hx
  · cases t with
    | nil =>
      simp only [List.nil_append, List.cons.injEq, true_and] at ht
      exact ht.symm
    | cons d t2 =>
      simp only [List.cons_append, List.cons.injEq] at ht
      exact absurd (by rw [ht.2]; simp) hy

/-- For a filename that contains a `.`, the card is a video element exactly
when the lower-cased text behind the last `.` is one of mp4, mov, webm, avi,
mkv; a record without a filename gets an image element. -/
theorem isVideo_of_dotted_name (f : String) (stem ext : List Char)
    (hf : f.data = stem ++ '.' :: ext) (hext : '.' ∉ ext) :
    isVideo (some f) = videoExtensions.contains (toLowerCase (String.mk ext)) ∧
    isVideo none = false := by
  refine ⟨?_, by decide⟩
  have ht : truthy (some f) = true := by
    simp [truthy, hf]
  obtain ⟨g, hlast, hsep, hshape⟩ := splitChars_last '.' f.data
  have hg : g = ext := by
    rcases hshape with ⟨_, hs⟩ | ⟨pre, hs, _⟩
    · rw [← hs, hf] at hsep
      exact absurd (by simp) hsep
    · rw [hf] at hs
      exact (last_segment_unique '.' stem pre ext g hs hext hsep).symm
  simp [isVideo, extOf, ht, pop, split, List.getLast?_map, hlast, hg]

/-- The dotted-name rule at "Holiday.MP4": `stem` is "Holiday", `ext` is
"MP4", and the card is a video element. -/
theorem isVideo_of_dotted_name_witness :
    isVideo (some "Holiday.MP4") = videoExtensions.contains (toLowerCase "MP4") ∧
    isVideo none = false :=
  isVideo_of_dotted_name "Holiday.MP4" "Holiday".data "MP4".data (by decide) (by decide)

/-- Start-up never leaves the results container `null`: when lines 18-46
complete, `resultsDiv` refers to an element. -/
theorem init_results_container_nonnull (doc : Document) (r : Resolved)
    (h : init doc = Except.ok r) : r.resultsDiv ≠ none := by
  unfold init at h
  simp only at h
  split at h
  · simp at h
  · rename_i us doc1 _
    split at h
    · simp at h
    · rename_i rd doc2 hrd
      simp only [Except.ok.injEq] at h
      rw [← h]
      simp only
      unfold resultsDiv at hrd
      split at hrd
      · simp only [Except.ok.injEq, Prod.mk.injEq] at hrd
        rw [← hrd.1]
        simp
      · split at hrd
        · simp only [Except.ok.injEq, Prod.mk.injEq] at hrd
          rw [← hrd.1]
          simp
        · split at hrd
          · simp at hrd
          · simp only [Except.ok.injEq, Prod.mk.injEq] at hrd
            rw [← hrd.1]
            simp

/-- Start-up on the page without an upload button completes with a results
container. -/
theorem init_results_container_nonnull_witness :
    ∃ r, init pageWithoutButton = Except.ok r ∧ r.resultsDiv ≠ none :=
  ⟨_, rfl, init_results_container_nonnull pageWithoutButton _ rfl⟩

/-- With a status label and a results container that are not `null`, no run of
either listener ends in an exception: every outcome of the server (network
error, malformed JSON, JSON `null`, any object, any status) ends in a page. -/
theorem listeners_total_with_label (expo : JsNumber → String) (label container : Element)
    (files : Option (List File)) (value : Option String)
    (uploadServer : Request → Response UploadData)
    (searchServer : Request → Response SearchData) (p : Page) :
    (∃ q, fileInputChange (some label) files uploadServer p = Except.ok q) ∧
    (∃ q, searchClick expo (some container) value searchServer p = Except.ok q) := by
  constructor
  · cases files with
    | none => exact ⟨_, rfl⟩
    | some fs =>
      simp only [fileInputChange, setStatusText]
      split
      · exact ⟨_, rfl⟩
      · split
        · split <;> exact ⟨_, rfl⟩
        · exact ⟨_, rfl⟩
  · simp only [searchClick, setResultsHTML]
    split
    · exact ⟨_, rfl⟩
    · split <;> exact ⟨_, rfl⟩

/-- The status label is not `null` when an element carries one of its
candidate ids, or when the upload button that was found has a parent element:
the new `span` is then attached as the last child of that parent and found by
its id. -/
theorem status_label_nonnull_with_button (doc : Document) (btn : Element) (i d p : Nat)
    (hi : indexOfNode doc btn = some i) (hd : btn.depth = d + 1)
    (hp : parentIndex doc i d = some p) :
    ∃ e doc1, uploadStatus doc (some btn) = Except.ok (some e, doc1) := by
  unfold uploadStatus
  cases hfind : findOne doc uploadStatusIds with
  | some el => exact ⟨el, doc, rfl⟩
  | none =>
    simp only [hi]
    split
    · rename_i h0
      rw [hd] at h0
      exact absurd h0 (by simp)
    · rename_i d2 hd2
      have hdd : d2 = d := by
        rw [hd] at hd2
        exact (Nat.succ.inj hd2).symm
      subst hdd
      simp only [hp]
      have hsome : (getElementById (appendChildAt doc p d2 "span" [("id", "uploadStatus")])
          "uploadStatus").isSome = true := by
        unfold getElementById
        rw [List.find?_isSome]
        refine ⟨{ tagName := "span", attrs := [("id", "uploadStatus")], depth := d2 + 1 }, ?_, ?_⟩
        · simp [appendChildAt]
        · have hid : (Element.mk "span" [("id", "uploadStatus")] (d2 + 1)).id
              = some "uploadStatus" := rfl
          simp [hid]
      obtain ⟨e, he⟩ := Option.isSome_iff_exists.mp hsome
      exact ⟨e, _, by rw [he]⟩

/-- The page with an upload button inside a `div`: the `span` is attached
behind the file input, as the last child of that `div`, and is the label. -/
theorem status_label_nonnull_with_button_witness :
    ∃ e doc1, uploadStatus pageWithButton
        (some { tagName := "button", attrs := [("id", "uploadBtn")], depth := 3 })
      = Except.ok (some e, doc1) :=
  status_label_nonnull_with_button pageWithButton
    { tagName := "button", attrs := [("id", "uploadBtn")], depth := 3 } 4 2 3
    (by decide) rfl (by decide)

end AiGallery
